import Mathlib

/-!
Verification of the handshake-backend orchestration engine.

The definitions below are a shallow embedding of the JavaScript source:
the challenge state machine and its guard table
(src/utils/constants.js, src/models/Challenge.js),
the orchestrator operations of src/services/HandshakeService.js,
the decline endpoint of src/controllers/challengeController.js,
the presence heartbeat of src/services/PresenceService.js,
the error-status mapping of src/middleware/errorHandler.js,
and the user serialization of src/models/User.js.
Database rows become Lean records, redis hashes become association
lists, and every external effect (lock handling, state writes, socket
emissions, push calls, job scheduling) is recorded in an explicit
event trace so that locking and fan-out properties can be stated.
-/

namespace Handshake

/-- Challenge states, the CHALLENGE_STATES enum of src/utils/constants.js. -/
inductive CState where
  | PENDING
  | NOTIFYING
  | WAITING_RESPONSE
  | ACTIVE
  | DECLINED
  | TIMEOUT
  | EXPIRED
deriving DecidableEq, Repr

/-- Session states, the SESSION_STATES enum of src/utils/constants.js. -/
inductive SState where
  | ACTIVE
  | COMPLETED
  | ABANDONED
deriving DecidableEq, Repr

/-- The CHALLENGE_STATE_TRANSITIONS table of src/utils/constants.js,
field by field; note the self-loop on ACTIVE present in the source. -/
def challengeStateTransitions : CState → List CState
  | .PENDING => [.NOTIFYING, .EXPIRED]
  | .NOTIFYING => [.WAITING_RESPONSE]
  | .WAITING_RESPONSE => [.ACTIVE, .DECLINED, .TIMEOUT]
  | .ACTIVE => [.ACTIVE]
  | .DECLINED => []
  | .TIMEOUT => []
  | .EXPIRED => []

/-- The DEFAULTS.MAX_RETRY_ATTEMPTS value of src/utils/constants.js
(environment override absent, so the default 3). -/
def MAX_RETRY_ATTEMPTS : Nat := 3

/-- The DEFAULTS.PRESENCE_TTL_SECONDS value of src/utils/constants.js. -/
def PRESENCE_TTL_SECONDS : Nat := 60

/-- A challenge row as persisted by the Challenge model of
src/models/Challenge.js (the columns the orchestrator reads or writes). -/
structure ChallengeRec where
  id : Nat
  challengerId : Nat
  challengedId : Nat
  state : CState
  gameType : String
  notificationAttempts : Nat
deriving DecidableEq, Repr

/-- Challenge.prototype.canTransitionTo of src/models/Challenge.js:
membership of the target state in the transition table row. -/
def canTransitionTo (c : ChallengeRec) (newState : CState) : Bool :=
  decide (newState ∈ challengeStateTransitions c.state)

/-- A thrown JavaScript error as the error handler sees it: its name,
message and optional statusCode property. -/
structure JsError where
  name : String
  message : String
  statusCode : Option Nat
deriving DecidableEq, Repr

/-- A plain new Error of the JavaScript runtime: name Error, no
statusCode property. -/
def plainError (msg : String) : JsError :=
  { name := "Error", message := msg, statusCode := none }

/-- Modelled from the spec: the ValidationError class of src/utils/errors.js
is not in the source tree (only its throw sites and catch sites are); per
the error taxonomy of the spec, Validation maps to HTTP 400. -/
def validationError (msg : String) : JsError :=
  { name := "ValidationError", message := msg, statusCode := some 400 }

/-- Challenge.prototype.transitionTo of src/models/Challenge.js: throw on
a transition the table rejects, otherwise write the state column. -/
def transitionTo (c : ChallengeRec) (newState : CState) : Except JsError ChallengeRec :=
  if canTransitionTo c newState then
    .ok { c with state := newState }
  else
    .error (plainError "Invalid state transition")

/-- ChallengeService.updateChallengeState of src/services/ChallengeService.js:
re-check the guard, throwing ValidationError, then delegate to transitionTo. -/
def updateChallengeState (c : ChallengeRec) (newState : CState) : Except JsError ChallengeRec :=
  if canTransitionTo c newState then
    transitionTo c newState
  else
    .error (validationError "Cannot transition challenge")

/-- Challenge.prototype.incrementNotificationAttempt of src/models/Challenge.js. -/
def incrementNotificationAttempt (c : ChallengeRec) : ChallengeRec :=
  { c with notificationAttempts := c.notificationAttempts + 1 }

/-- The errorHandler middleware of src/middleware/errorHandler.js: the
response status is statusCode when the error carries one, else 500,
overridden for the named Sequelize and JWT error classes. -/
def errorHandlerStatus (e : JsError) : Nat :=
  if e.name = "SequelizeValidationError" then 400
  else if e.name = "SequelizeUniqueConstraintError" then 409
  else if e.name = "SequelizeForeignKeyConstraintError" then 400
  else if e.name = "JsonWebTokenError" then 401
  else if e.name = "TokenExpiredError" then 401
  else match e.statusCode with
    | some c => c
    | none => 500

/-- One observable external effect of an orchestrator operation. Lock
keys are identified by the challenge id they guard (the source builds
the string lock:challenge:id from it); emissions name the user room and
the event, and session:ready emissions carry the opponent id. -/
inductive Ev where
  | lockAcq (cid : Nat)
  | lockRel (cid : Nat)
  | stateWrite (cid : Nat) (s : CState)
  | emit (room : Nat) (event : String) (opponent : Option Nat)
  | push (userId : Nat)
  | schedule (cid : Nat) (attempt : Nat)
deriving DecidableEq, Repr

/-- Computes, walking an event trace with the multiset of held lock keys,
whether every state write happens while the lock of its challenge is held. -/
def writesLockedAux : List Nat → List Ev → Bool
  | _, [] => true
  | held, Ev.lockAcq k :: rest => writesLockedAux (k :: held) rest
  | held, Ev.lockRel k :: rest => writesLockedAux (held.erase k) rest
  | held, Ev.stateWrite cid _ :: rest =>
    if cid ∈ held then writesLockedAux held rest else false
  | held, Ev.emit _ _ _ :: rest => writesLockedAux held rest
  | held, Ev.push _ :: rest => writesLockedAux held rest
  | held, Ev.schedule _ _ :: rest => writesLockedAux held rest

/-- Every state write of the trace occurs inside a lock region of its
own challenge (no lock held initially). -/
def writesLocked (t : List Ev) : Bool :=
  writesLockedAux [] t

/-- The result value of HandshakeService.initiateHandshake on success. -/
structure InitOk where
  playerANotified : Bool
  state : CState
deriving DecidableEq, Repr

/-- The full outcome of HandshakeService.initiateHandshake: the returned
or thrown value, the challenge row after the call, and the event trace. -/
structure InitOut where
  res : Except JsError InitOk
  chall : ChallengeRec
  evs : List Ev
deriving Repr

/-- HandshakeService.initiateHandshake of src/services/HandshakeService.js.
Inputs stand for the environment the call observes: lockFree is whether
the redis lock set-if-absent succeeds, isOnline is the presence answer
for the challenger, pushOk is the boolean returned by the FCM send,
hasSocket and hasQM are whether the socket server and the queue manager have
been injected. The body follows the source line by line: acquire the
lock, check PENDING, check the accepting user, write NOTIFYING, emit the
wake-up when the challenger is online, always fire the push, write
WAITING_RESPONSE, increment the attempt counter, schedule the timeout
job for attempt 1, release the lock (also on the error paths, by the
finally of withLock). -/
def initiateHandshake (c : ChallengeRec) (acceptedBy : Nat)
    (lockFree isOnline pushOk hasSocket hasQM : Bool) : InitOut :=
  if lockFree = false then
    { res := .error (plainError "Failed to acquire lock"), chall := c, evs := [] }
  else if c.state ≠ .PENDING then
    { res := .error (plainError "Challenge is not in PENDING state"),
      chall := c, evs := [.lockAcq c.id, .lockRel c.id] }
  else if c.challengedId ≠ acceptedBy then
    { res := .error (plainError "User is not the challenged user"),
      chall := c, evs := [.lockAcq c.id, .lockRel c.id] }
  else
    match updateChallengeState c .NOTIFYING with
    | .error e =>
      { res := .error e, chall := c, evs := [.lockAcq c.id, .lockRel c.id] }
    | .ok c1 =>
      let wakeEvs : List Ev :=
        if isOnline && hasSocket then
          [.emit c.challengerId "challenge:wake-up" none]
        else []
      match updateChallengeState c1 .WAITING_RESPONSE with
      | .error e =>
        { res := .error e, chall := c1,
          evs := [.lockAcq c.id, .stateWrite c.id .NOTIFYING] ++ wakeEvs
            ++ [.push c.challengerId, .lockRel c.id] }
      | .ok c2 =>
        let c3 := incrementNotificationAttempt c2
        let schedEvs : List Ev := if hasQM then [.schedule c.id 1] else []
        { res := .ok { playerANotified := isOnline || pushOk, state := .WAITING_RESPONSE },
          chall := c3,
          evs := [.lockAcq c.id, .stateWrite c.id .NOTIFYING] ++ wakeEvs
            ++ [.push c.challengerId, .stateWrite c.id .WAITING_RESPONSE]
            ++ schedEvs ++ [.lockRel c.id] }

/-- A session row as created by the Session model of src/models/Session.js. -/
structure SessionRec where
  id : Nat
  challengeId : Nat
  players : List Nat
  state : SState
deriving DecidableEq, Repr

/-- SessionService.createSession of src/services/SessionService.js: reject
a player list whose length is not two, else insert an ACTIVE session row.
The fresh row id is an input standing for the generated UUID. -/
def createSession (challengeId : Nat) (players : List Nat) (sid : Nat) :
    Except JsError SessionRec :=
  if players.length ≠ 2 then
    .error (plainError "Session must have exactly 2 players")
  else
    .ok { id := sid, challengeId := challengeId, players := players, state := .ACTIVE }

/-- The result value of HandshakeService.handleWakeUpResponse on success. -/
structure WakeOk where
  action : String
  sessionId : Option Nat
deriving DecidableEq, Repr

/-- The full outcome of HandshakeService.handleWakeUpResponse: result or
thrown error, the challenge row after the call, the session rows created,
and the event trace. -/
structure WakeOut where
  res : Except JsError WakeOk
  chall : ChallengeRec
  sessions : List SessionRec
  evs : List Ev
deriving Repr

/-- HandshakeService.handleWakeUpResponse of src/services/HandshakeService.js.
No lock is acquired in the source. Checks the caller is the challenger,
then the WAITING_RESPONSE state; on ACCEPT creates the session with
players challenger then challenged, writes ACTIVE and emits session:ready
to both rooms with the opposite participant as opponent; on DECLINE
writes DECLINED and emits challenge:declined to the challenged room; any
other response throws. -/
def handleWakeUpResponse (c : ChallengeRec) (userId : Nat) (response : String)
    (hasSocket : Bool) (freshSessionId : Nat) : WakeOut :=
  if c.challengerId ≠ userId then
    { res := .error (plainError "Only the original challenger can respond"),
      chall := c, sessions := [], evs := [] }
  else if c.state ≠ .WAITING_RESPONSE then
    { res := .error (plainError "Challenge is not waiting for response"),
      chall := c, sessions := [], evs := [] }
  else if response = "ACCEPT" then
    match createSession c.id [c.challengerId, c.challengedId] freshSessionId with
    | .error e => { res := .error e, chall := c, sessions := [], evs := [] }
    | .ok sess =>
      match updateChallengeState c .ACTIVE with
      | .error e => { res := .error e, chall := c, sessions := [sess], evs := [] }
      | .ok c1 =>
        let emits : List Ev :=
          if hasSocket then
            [.emit c.challengerId "session:ready" (some c.challengedId),
             .emit c.challengedId "session:ready" (some c.challengerId)]
          else []
        { res := .ok { action := "SESSION_CREATED", sessionId := some freshSessionId },
          chall := c1, sessions := [sess],
          evs := [.stateWrite c.id .ACTIVE] ++ emits }
  else if response = "DECLINE" then
    match updateChallengeState c .DECLINED with
    | .error e => { res := .error e, chall := c, sessions := [], evs := [] }
    | .ok c1 =>
      let emits : List Ev :=
        if hasSocket then [.emit c.challengedId "challenge:declined" none] else []
      { res := .ok { action := "DECLINED", sessionId := none },
        chall := c1, sessions := [], evs := [.stateWrite c.id .DECLINED] ++ emits }
  else
    { res := .error (plainError "Invalid response"),
      chall := c, sessions := [], evs := [] }

/-- The full outcome of HandshakeService.handleTimeout: the boolean the
handler returns, the challenge row after the call, and the event trace. -/
structure TimeoutOut where
  retry : Bool
  chall : ChallengeRec
  evs : List Ev
deriving Repr

/-- HandshakeService.handleTimeout of src/services/HandshakeService.js.
No lock is acquired in the source. Re-reads the state and returns false
without acting when the challenge is no longer WAITING_RESPONSE; at or
above MAX_RETRY_ATTEMPTS writes TIMEOUT and emits challenge:timeout to
the challenged room; otherwise resends the push, increments the attempt
counter and schedules the next attempt. The catch of the source turns a
thrown error into a false return with no state change. -/
def handleTimeout (c : ChallengeRec) (attemptNumber : Nat)
    (hasSocket hasQM : Bool) : TimeoutOut :=
  if c.state ≠ .WAITING_RESPONSE then
    { retry := false, chall := c, evs := [] }
  else if MAX_RETRY_ATTEMPTS ≤ attemptNumber then
    match updateChallengeState c .TIMEOUT with
    | .error _ => { retry := false, chall := c, evs := [] }
    | .ok c1 =>
      let emits : List Ev :=
        if hasSocket then [.emit c.challengedId "challenge:timeout" none] else []
      { retry := false, chall := c1, evs := [.stateWrite c.id .TIMEOUT] ++ emits }
  else
    let c1 := incrementNotificationAttempt c
    let schedEvs : List Ev :=
      if hasQM then [.schedule c.id (attemptNumber + 1)] else []
    { retry := true, chall := c1, evs := [.push c.challengerId] ++ schedEvs }

/-- The outcome of the declineChallenge controller: the HTTP status and
success flag of the JSON response, the challenge row after the call, and
the event trace. -/
structure DeclineOut where
  status : Nat
  success : Bool
  chall : ChallengeRec
  evs : List Ev
deriving Repr

/-- The declineChallenge handler of src/controllers/challengeController.js.
Responds 403 when the caller is not the challenged user, 400 when the
state is not PENDING; otherwise calls updateChallengeState to DECLINED,
emitting challenge:declined to the challenger room on success, and on a
thrown error falls through to the errorHandler middleware. -/
def declineChallenge (c : ChallengeRec) (userId : Nat) : DeclineOut :=
  if c.challengedId ≠ userId then
    { status := 403, success := false, chall := c, evs := [] }
  else if c.state ≠ .PENDING then
    { status := 400, success := false, chall := c, evs := [] }
  else
    match updateChallengeState c .DECLINED with
    | .error e =>
      { status := errorHandlerStatus e, success := false, chall := c, evs := [] }
    | .ok c1 =>
      { status := 200, success := true, chall := c1,
        evs := [.stateWrite c.id .DECLINED,
          .emit c.challengerId "challenge:declined" none] }

/-- The acceptChallenge handler of src/controllers/challengeController.js
composed with the errorHandler middleware: the HTTP status of the
response and the challenge row after the call. -/
def acceptChallenge (c : ChallengeRec) (uid : Nat)
    (lockFree isOnline pushOk hasSocket hasQM : Bool) : Nat × ChallengeRec :=
  let out := initiateHandshake c uid lockFree isOnline pushOk hasSocket hasQM
  match out.res with
  | .ok _ => (200, out.chall)
  | .error e => (errorHandlerStatus e, out.chall)

/-- One redis hash with its remaining time to live, as the presence code
uses it: string field names mapped to string values. -/
structure HashEntry where
  fields : List (String × String)
  ttl : Nat
deriving DecidableEq, Repr

/-- The redis keyspace as an association list from key to hash. A key
absent from the list is a key that does not exist (or has expired). -/
abbrev Store := List (String × HashEntry)

/-- The presence key of a user, PRESENCE colon userId
(PresenceService internal helper). -/
def presenceKey (userId : Nat) : String :=
  "presence:" ++ toString userId

/-- Writes one field of a hash, as redis hset does: overwrite the field
when present, append it otherwise. -/
def setField (fs : List (String × String)) (k v : String) : List (String × String) :=
  if fs.any (fun p => p.1 = k) then
    fs.map (fun p => if p.1 = k then (k, v) else p)
  else
    fs ++ [(k, v)]

/-- PresenceService.heartbeat of src/services/PresenceService.js: when the
presence hash of the user exists, refresh its TTL to PRESENCE_TTL_SECONDS
and write the lastSeen field; when it does not exist, do nothing. -/
def heartbeat (store : Store) (userId : Nat) (now : String) : Store :=
  let key := presenceKey userId
  if store.any (fun p => p.1 = key) then
    store.map (fun p =>
      if p.1 = key then
        (p.1, { fields := setField p.2.fields "lastSeen" now,
                ttl := PRESENCE_TTL_SECONDS })
      else p)
  else
    store

/-- A user row of src/models/User.js (the columns its serialization touches). -/
structure UserRec where
  id : Nat
  username : String
  email : String
  password : String
  isActive : Bool
deriving DecidableEq, Repr

/-- The attribute object this.get() returns for a user row, as an
association list from column name to printed value. -/
def userGet (u : UserRec) : List (String × String) :=
  [("id", toString u.id),
   ("username", u.username),
   ("email", u.email),
   ("password", u.password),
   ("isActive", toString u.isActive)]

/-- User.prototype.toJSON of src/models/User.js: copy the attributes and
delete the password property. -/
def userToJSON (u : UserRec) : List (String × String) :=
  (userGet u).filter (fun p => p.1 ≠ "password")

/-- The serialized user of the register response of the auth controller
(201 body, data.user = user.toJSON()). -/
def registerResponseUser (u : UserRec) : List (String × String) :=
  userToJSON u

/-- The serialized user of the login response of the auth controller. -/
def loginResponseUser (u : UserRec) : List (String × String) :=
  userToJSON u

/-- The serialized user of the profile response of the auth controller. -/
def profileResponseUser (u : UserRec) : List (String × String) :=
  userToJSON u

/-- State of the whole system around one challenge: its row, the set of
timeout job attempt numbers ever enqueued for it, and the set of attempt
numbers already delivered at least once. -/
structure SysState where
  chall : ChallengeRec
  scheduled : Finset Nat
  delivered : Finset Nat
deriving DecidableEq

/-- One external stimulus of the orchestrator for this challenge: an
accept request, a timeout job delivery, a wake-up response, a decline
request, or a pass of the expiration sweep (whose past flag is whether
the expiry instant of the row has passed). -/
inductive SysEvent where
  | accept (uid : Nat) (isOnline pushOk : Bool)
  | deliver (n : Nat)
  | respond (uid : Nat) (response : String)
  | decline (uid : Nat)
  | expireSweep (past : Bool)
deriving DecidableEq, Repr

/-- Collects the attempt numbers of the schedule events of a trace. -/
def schedOf (evs : List Ev) : Finset Nat :=
  evs.foldl (fun acc e => match e with
    | .schedule _ n => insert n acc
    | _ => acc) ∅

/-- One step of the system. Operations apply the embedded service
functions (failed calls leave the row unchanged, as in the source, where
every throw happens before any write). A timeout job can only be
delivered when it was scheduled, and redelivery of an already delivered
job stays possible: the bull queue gives at-least-once delivery. The
expiration sweep applies the UPDATE of markExpiredChallenges, whose
WHERE clause keeps only PENDING rows past their expiry. -/
def sysStep (s : SysState) (e : SysEvent) : Option SysState :=
  match e with
  | .accept uid isOnline pushOk =>
    let out := initiateHandshake s.chall uid true isOnline pushOk true true
    some { s with chall := out.chall, scheduled := s.scheduled ∪ schedOf out.evs }
  | .deliver n =>
    if n ∈ s.scheduled then
      let out := handleTimeout s.chall n true true
      some { chall := out.chall,
             scheduled := s.scheduled ∪ schedOf out.evs,
             delivered := insert n s.delivered }
    else none
  | .respond uid r =>
    let out := handleWakeUpResponse s.chall uid r true 0
    some { s with chall := out.chall }
  | .decline uid =>
    let out := declineChallenge s.chall uid
    some { s with chall := out.chall }
  | .expireSweep past =>
    if s.chall.state = .PENDING ∧ past then
      some { s with chall := { s.chall with state := .EXPIRED } }
    else
      some s

/-- Runs a trace of stimuli from a state. -/
def runTrace (s : SysState) : List SysEvent → Option SysState
  | [] => some s
  | e :: rest =>
    match sysStep s e with
    | some s1 => runTrace s1 rest
    | none => none

/-- The system state right after Challenge.create: the row in PENDING
with zero attempts, nothing scheduled, nothing delivered. -/
def initSys (c : ChallengeRec) : SysState :=
  { chall := c, scheduled := ∅, delivered := ∅ }

/-- The attempt numbers of the timeout deliveries of a trace. -/
def deliversOf (t : List SysEvent) : List Nat :=
  t.filterMap (fun e => match e with
    | .deliver n => some n
    | _ => none)

/-- The terminal states of the state machine: ACTIVE, DECLINED, TIMEOUT
and EXPIRED, the rows of the transition table the spec lists as terminal. -/
def isTerminal : CState → Bool
  | .ACTIVE => true
  | .DECLINED => true
  | .TIMEOUT => true
  | .EXPIRED => true
  | _ => false

/-- Inductive invariant of the system around one challenge: every
scheduled attempt number lies in the closed range one to
MAX_RETRY_ATTEMPTS, every delivered job was scheduled, a PENDING row has
a zero counter and an empty schedule, and the counter is bounded by one
initiation increment plus one increment per distinct delivered retry
attempt below MAX_RETRY_ATTEMPTS. -/
def Inv (s : SysState) : Prop :=
  s.scheduled ⊆ ({1, 2, 3} : Finset Nat)
  ∧ s.delivered ⊆ s.scheduled
  ∧ (s.chall.state = .PENDING → s.chall.notificationAttempts = 0 ∧ s.scheduled = ∅)
  ∧ s.chall.notificationAttempts
      ≤ 1 + (s.delivered.filter (fun n => n < MAX_RETRY_ATTEMPTS)).card

/-- A sample challenge row in PENDING, used to instantiate theorems. -/
def chPending : ChallengeRec :=
  { id := 1, challengerId := 10, challengedId := 20, state := .PENDING,
    gameType := "Chess", notificationAttempts := 0 }

/-- A sample challenge row in WAITING_RESPONSE after one attempt. -/
def chWaiting : ChallengeRec :=
  { chPending with state := .WAITING_RESPONSE, notificationAttempts := 1 }

/-- A sample challenge row in ACTIVE. -/
def chActive : ChallengeRec :=
  { chPending with state := .ACTIVE }

/-! Theorems. -/

/-- C3, counterexample: the claim that a challenge in a terminal state
rejects every transition fails at the concrete input state ACTIVE with
target ACTIVE: the transition table of the source contains a self-loop
on ACTIVE, so the guard accepts it and transitionTo succeeds. -/
theorem terminal_self_loop_cex :
    isTerminal chActive.state = true
    ∧ canTransitionTo chActive .ACTIVE = true
    ∧ transitionTo chActive .ACTIVE = .ok chActive :=
  ⟨by decide, by decide, rfl⟩

/-- C3, amended: from a terminal state the only transition the guard
accepts is the self-loop from ACTIVE to ACTIVE, so a transition of a
terminal challenge that succeeds never changes the state value. -/
theorem terminal_state_value_frozen (c : ChallengeRec) (s : CState)
    (c' : ChallengeRec) (hterm : isTerminal c.state = true)
    (h : transitionTo c s = .ok c') :
    c'.state = c.state ∧ c.state = .ACTIVE ∧ s = .ACTIVE := by
  rcases c with ⟨i, ger, ged, st, gt, att⟩
  unfold transitionTo at h
  by_cases hcan : canTransitionTo ⟨i, ger, ged, st, gt, att⟩ s = true
  · rw [if_pos hcan] at h
    injection h with h
    have hst : st = .ACTIVE ∧ s = .ACTIVE := by
      revert hcan hterm
      cases st <;> cases s <;>
        simp [canTransitionTo, challengeStateTransitions, isTerminal]
    subst h
    simp [hst.1, hst.2]
  · rw [if_neg hcan] at h
    cases h

/-- C3, witness for the amended theorem at the concrete ACTIVE challenge. -/
theorem terminal_state_value_frozen_witness :
    chActive.state = chActive.state
    ∧ chActive.state = .ACTIVE
    ∧ CState.ACTIVE = CState.ACTIVE :=
  terminal_state_value_frozen chActive .ACTIVE chActive (by decide) rfl

/-- C10: user serialization unconditionally removes the password field,
so the user objects of the register, login and profile responses never
contain the secret verifier, for every stored user row. -/
theorem toJSON_omits_password (u : UserRec) :
    (userToJSON u).lookup "password" = none
    ∧ (registerResponseUser u).lookup "password" = none
    ∧ (loginResponseUser u).lookup "password" = none
    ∧ (profileResponseUser u).lookup "password" = none :=
  ⟨rfl, rfl, rfl, rfl⟩

/-- C8: delivering the same timeout job twice leaves the challenge state
column exactly where one delivery leaves it, because the handler
re-reads the state and acts only in WAITING_RESPONSE, for every
challenge row, attempt number and environment. -/
theorem timeout_idempotent_on_state (c : ChallengeRec) (n : Nat)
    (hasSocket hasQM : Bool) :
    (handleTimeout (handleTimeout c n hasSocket hasQM).chall n hasSocket hasQM).chall.state
      = (handleTimeout c n hasSocket hasQM).chall.state := by
  rcases c with ⟨i, ger, ged, st, gt, att⟩
  cases st <;> by_cases hn : MAX_RETRY_ATTEMPTS ≤ n <;>
    simp [handleTimeout, updateChallengeState, transitionTo, canTransitionTo,
      challengeStateTransitions, incrementNotificationAttempt, hn]

/-- C1: the decline endpoint can never decline a PENDING challenge. The
transition table of the source has no edge from PENDING to DECLINED, so
the state update of the handler always throws, the response is a
failure with status 400, the row keeps state PENDING, and no
challenge:declined event is emitted. -/
theorem decline_pending_rejected (c : ChallengeRec) (userId : Nat)
    (hs : c.state = .PENDING) (hu : c.challengedId = userId) :
    canTransitionTo c .DECLINED = false
    ∧ (declineChallenge c userId).success = false
    ∧ (declineChallenge c userId).status = 400
    ∧ (declineChallenge c userId).chall = c
    ∧ (declineChallenge c userId).evs = [] := by
  rcases c with ⟨i, ger, ged, st, gt, att⟩
  subst hu
  simp_all [declineChallenge, updateChallengeState, canTransitionTo,
    challengeStateTransitions, errorHandlerStatus, validationError]

/-- C1, witness at a concrete PENDING challenge declined by its
challenged user. -/
theorem decline_pending_rejected_witness :
    canTransitionTo chPending .DECLINED = false
    ∧ (declineChallenge chPending 20).success = false
    ∧ (declineChallenge chPending 20).status = 400
    ∧ (declineChallenge chPending 20).chall = chPending
    ∧ (declineChallenge chPending 20).evs = [] :=
  decline_pending_rejected chPending 20 rfl rfl

/-- Branch characterization of initiateHandshake: a challenge not in
PENDING makes the call throw inside the lock, leaving the row untouched
and the trace a bare acquire and release. -/
theorem initiate_not_pending (c : ChallengeRec) (uid : Nat)
    (isOnline pushOk hasSocket hasQM : Bool) (h : c.state ≠ .PENDING) :
    initiateHandshake c uid true isOnline pushOk hasSocket hasQM =
      { res := .error (plainError "Challenge is not in PENDING state"),
        chall := c, evs := [.lockAcq c.id, .lockRel c.id] } := by
  simp [initiateHandshake, h]

/-- Branch characterization of initiateHandshake: an accepting user other
than the challenged one makes the call throw inside the lock. -/
theorem initiate_wrong_user (c : ChallengeRec) (uid : Nat)
    (isOnline pushOk hasSocket hasQM : Bool)
    (h1 : c.state = .PENDING) (h2 : c.challengedId ≠ uid) :
    initiateHandshake c uid true isOnline pushOk hasSocket hasQM =
      { res := .error (plainError "User is not the challenged user"),
        chall := c, evs := [.lockAcq c.id, .lockRel c.id] } := by
  simp [initiateHandshake, h1, h2]

/-- Branch characterization of initiateHandshake on the success path:
the row moves to WAITING_RESPONSE with the counter incremented, and the
trace runs acquire, write NOTIFYING, optional wake-up emit, push, write
WAITING_RESPONSE, optional schedule of attempt one, release. -/
theorem initiate_success (c : ChallengeRec) (uid : Nat)
    (isOnline pushOk hasSocket hasQM : Bool)
    (h1 : c.state = .PENDING) (h2 : c.challengedId = uid) :
    initiateHandshake c uid true isOnline pushOk hasSocket hasQM =
      { res := .ok { playerANotified := isOnline || pushOk, state := .WAITING_RESPONSE },
        chall := { c with
          state := .WAITING_RESPONSE,
          notificationAttempts := c.notificationAttempts + 1 },
        evs := [.lockAcq c.id, .stateWrite c.id .NOTIFYING]
          ++ (if isOnline && hasSocket then [.emit c.challengerId "challenge:wake-up" none] else [])
          ++ [.push c.challengerId, .stateWrite c.id .WAITING_RESPONSE]
          ++ (if hasQM then [.schedule c.id 1] else []) ++ [.lockRel c.id] } := by
  simp [initiateHandshake, updateChallengeState, transitionTo, canTransitionTo,
    challengeStateTransitions, incrementNotificationAttempt, h1, h2]

/-- The errorHandler middleware maps a plain Error, which carries no
statusCode property, to HTTP 500. -/
theorem errorHandlerStatus_plain (msg : String) :
    errorHandlerStatus (plainError msg) = 500 :=
  rfl

/-- C7, counterexample: the claim that a wrong-state accept responds 409
and a wrong-user accept responds 403 fails at concrete inputs: both
failures surface as HTTP 500, because initiateHandshake throws a plain
Error without a statusCode and the errorHandler middleware defaults to
500. -/
theorem accept_wrong_state_500_cex :
    (acceptChallenge chWaiting 20 true false true true true).1 = 500
    ∧ (acceptChallenge chWaiting 20 true false true true true).1 ≠ 409
    ∧ (acceptChallenge chPending 99 true false true true true).1 = 500
    ∧ (acceptChallenge chPending 99 true false true true true).1 ≠ 403 := by
  decide

/-- C7, amended: an accept of a challenge not in PENDING fails with HTTP
500 leaving the state unchanged; an accept by a user other than the
challenged one fails with HTTP 500 leaving the state unchanged; and a
second accept after a successful first fails with HTTP 500 while the
state remains WAITING_RESPONSE. -/
theorem accept_failure_statuses (c : ChallengeRec) (uid uid2 : Nat)
    (isOnline pushOk hasSocket hasQM on2 push2 io2 qm2 : Bool) :
    (c.state ≠ .PENDING →
      acceptChallenge c uid true isOnline pushOk hasSocket hasQM = (500, c))
    ∧ (c.state = .PENDING → c.challengedId ≠ uid →
      acceptChallenge c uid true isOnline pushOk hasSocket hasQM = (500, c))
    ∧ (c.state = .PENDING → c.challengedId = uid →
      (acceptChallenge c uid true isOnline pushOk hasSocket hasQM).1 = 200
      ∧ (acceptChallenge c uid true isOnline pushOk hasSocket hasQM).2.state = .WAITING_RESPONSE
      ∧ acceptChallenge (acceptChallenge c uid true isOnline pushOk hasSocket hasQM).2
          uid2 true on2 push2 io2 qm2
        = (500, (acceptChallenge c uid true isOnline pushOk hasSocket hasQM).2)) := by
  refine ⟨?_, ?_, ?_⟩
  · intro h
    simp [acceptChallenge, initiate_not_pending c uid isOnline pushOk hasSocket hasQM h,
      errorHandlerStatus_plain]
  · intro h1 h2
    simp [acceptChallenge, initiate_wrong_user c uid isOnline pushOk hasSocket hasQM h1 h2,
      errorHandlerStatus_plain]
  · intro h1 h2
    have hfirst := initiate_success c uid isOnline pushOk hasSocket hasQM h1 h2
    have hsecond := initiate_not_pending
      { c with
        state := .WAITING_RESPONSE,
        notificationAttempts := c.notificationAttempts + 1 }
      uid2 on2 push2 io2 qm2 (by simp)
    refine ⟨?_, ?_, ?_⟩
    · simp [acceptChallenge, hfirst]
    · simp [acceptChallenge, hfirst]
    · simp [acceptChallenge, hfirst, hsecond, errorHandlerStatus_plain]

/-- C7, witness: the amended statuses at a concrete challenge, its
challenged user and a second accept. -/
theorem accept_failure_statuses_witness :
    (acceptChallenge chWaiting 20 true false true true true = (500, chWaiting))
    ∧ ((acceptChallenge chPending 20 true false true true true).1 = 200
      ∧ (acceptChallenge chPending 20 true false true true true).2.state = .WAITING_RESPONSE
      ∧ acceptChallenge (acceptChallenge chPending 20 true false true true true).2
          20 true false true true true
        = (500, (acceptChallenge chPending 20 true false true true true).2)) :=
  ⟨(accept_failure_statuses chWaiting 20 20 false true true true false true true true).1
      (by decide),
   (accept_failure_statuses chPending 20 20 false true true true false true true true).2.2
      rfl rfl⟩

/-- C5: accepting a PENDING challenge as its challenged user moves the
row through NOTIFYING to WAITING_RESPONSE, fires the push channel
whatever the online status of the challenger, increments the attempt
counter, schedules the timeout job for attempt one, and returns
WAITING_RESPONSE with playerANotified equal to online or push success. -/
theorem initiate_handshake_success (c : ChallengeRec) (uid : Nat)
    (isOnline pushOk hasSocket : Bool)
    (h1 : c.state = .PENDING) (h2 : c.challengedId = uid) :
    (initiateHandshake c uid true isOnline pushOk hasSocket true).res
      = .ok { playerANotified := isOnline || pushOk, state := .WAITING_RESPONSE }
    ∧ (initiateHandshake c uid true isOnline pushOk hasSocket true).chall.state
      = .WAITING_RESPONSE
    ∧ (initiateHandshake c uid true isOnline pushOk hasSocket true).chall.notificationAttempts
      = c.notificationAttempts + 1
    ∧ Ev.stateWrite c.id .NOTIFYING
        ∈ (initiateHandshake c uid true isOnline pushOk hasSocket true).evs
    ∧ Ev.stateWrite c.id .WAITING_RESPONSE
        ∈ (initiateHandshake c uid true isOnline pushOk hasSocket true).evs
    ∧ Ev.push c.challengerId
        ∈ (initiateHandshake c uid true isOnline pushOk hasSocket true).evs
    ∧ Ev.schedule c.id 1
        ∈ (initiateHandshake c uid true isOnline pushOk hasSocket true).evs := by
  rw [initiate_success c uid isOnline pushOk hasSocket true h1 h2]
  refine ⟨rfl, rfl, rfl, ?_, ?_, ?_, ?_⟩ <;> simp

/-- C5, witness at a concrete PENDING challenge accepted by its
challenged user with the challenger offline and a successful push. -/
theorem initiate_handshake_success_witness :
    (initiateHandshake chPending 20 true false true true true).res
      = .ok { playerANotified := false || true, state := .WAITING_RESPONSE }
    ∧ (initiateHandshake chPending 20 true false true true true).chall.state
      = .WAITING_RESPONSE
    ∧ (initiateHandshake chPending 20 true false true true true).chall.notificationAttempts
      = chPending.notificationAttempts + 1
    ∧ Ev.stateWrite chPending.id .NOTIFYING
        ∈ (initiateHandshake chPending 20 true false true true true).evs
    ∧ Ev.stateWrite chPending.id .WAITING_RESPONSE
        ∈ (initiateHandshake chPending 20 true false true true true).evs
    ∧ Ev.push chPending.challengerId
        ∈ (initiateHandshake chPending 20 true false true true true).evs
    ∧ Ev.schedule chPending.id 1
        ∈ (initiateHandshake chPending 20 true false true true true).evs :=
  initiate_handshake_success chPending 20 false true true rfl rfl

/-- C4: an ACCEPT wake-up response by the challenger on a challenge in
WAITING_RESPONSE creates exactly one session for that challenge whose
players are the challenger and the challenged, moves the row to ACTIVE,
and emits session:ready to each participant room with the other
participant as opponent. -/
theorem accept_response_creates_session (c : ChallengeRec) (uid sid : Nat)
    (h1 : c.state = .WAITING_RESPONSE) (h2 : c.challengerId = uid) :
    (handleWakeUpResponse c uid "ACCEPT" true sid).sessions
      = [{ id := sid, challengeId := c.id,
           players := [c.challengerId, c.challengedId], state := .ACTIVE }]
    ∧ (handleWakeUpResponse c uid "ACCEPT" true sid).chall.state = .ACTIVE
    ∧ (handleWakeUpResponse c uid "ACCEPT" true sid).res
      = .ok { action := "SESSION_CREATED", sessionId := some sid }
    ∧ Ev.emit c.challengerId "session:ready" (some c.challengedId)
        ∈ (handleWakeUpResponse c uid "ACCEPT" true sid).evs
    ∧ Ev.emit c.challengedId "session:ready" (some c.challengerId)
        ∈ (handleWakeUpResponse c uid "ACCEPT" true sid).evs := by
  simp [handleWakeUpResponse, createSession, updateChallengeState, transitionTo,
    canTransitionTo, challengeStateTransitions, h1, h2]

/-- C4, witness at a concrete challenge in WAITING_RESPONSE accepted by
its challenger. -/
theorem accept_response_creates_session_witness :
    (handleWakeUpResponse chWaiting 10 "ACCEPT" true 5).sessions
      = [{ id := 5, challengeId := chWaiting.id,
           players := [chWaiting.challengerId, chWaiting.challengedId], state := .ACTIVE }]
    ∧ (handleWakeUpResponse chWaiting 10 "ACCEPT" true 5).chall.state = .ACTIVE
    ∧ (handleWakeUpResponse chWaiting 10 "ACCEPT" true 5).res
      = .ok { action := "SESSION_CREATED", sessionId := some 5 }
    ∧ Ev.emit chWaiting.challengerId "session:ready" (some chWaiting.challengedId)
        ∈ (handleWakeUpResponse chWaiting 10 "ACCEPT" true 5).evs
    ∧ Ev.emit chWaiting.challengedId "session:ready" (some chWaiting.challengerId)
        ∈ (handleWakeUpResponse chWaiting 10 "ACCEPT" true 5).evs :=
  accept_response_creates_session chWaiting 10 5 rfl rfl

/-- C2, counterexample: the claim that every state write happens inside
a region holding the challenge lock fails at a concrete input: the
wake-up response handler writes ACTIVE with no lock held at all. -/
theorem wakeup_write_unlocked_cex :
    Ev.stateWrite chWaiting.id .ACTIVE
      ∈ (handleWakeUpResponse chWaiting 10 "ACCEPT" true 5).evs
    ∧ writesLocked (handleWakeUpResponse chWaiting 10 "ACCEPT" true 5).evs = false := by
  decide

/-- C2, amended: only initiateHandshake observes the single-writer
discipline: every one of its state writes happens while the challenge
lock is held, for every input and environment. The wake-up response
handler, on both its ACCEPT and DECLINE paths, and the timeout handler
on its TIMEOUT path write the state column with no lock held, and the
decline endpoint never reaches a state write at all. -/
theorem lock_discipline_amended (c : ChallengeRec) (uid : Nat) (n sid : Nat)
    (lockFree isOnline pushOk hasSocket hasQM : Bool) :
    writesLocked (initiateHandshake c uid lockFree isOnline pushOk hasSocket hasQM).evs = true
    ∧ (c.state = .WAITING_RESPONSE → c.challengerId = uid →
        writesLocked (handleWakeUpResponse c uid "ACCEPT" hasSocket sid).evs = false)
    ∧ (c.state = .WAITING_RESPONSE → c.challengerId = uid →
        writesLocked (handleWakeUpResponse c uid "DECLINE" hasSocket sid).evs = false)
    ∧ (c.state = .WAITING_RESPONSE → MAX_RETRY_ATTEMPTS ≤ n →
        writesLocked (handleTimeout c n hasSocket hasQM).evs = false)
    ∧ (declineChallenge c uid).evs = [] := by
  refine ⟨?_, ?_, ?_, ?_, ?_⟩
  · cases lockFree
    · simp [initiateHandshake, writesLocked, writesLockedAux]
    · by_cases hp : c.state = .PENDING
      · by_cases hu : c.challengedId = uid
        · rw [initiate_success c uid isOnline pushOk hasSocket hasQM hp hu]
          by_cases ho : (isOnline && hasSocket) = true <;> cases hasQM <;>
            simp [writesLocked, writesLockedAux, ho]
        · rw [initiate_wrong_user c uid isOnline pushOk hasSocket hasQM hp hu]
          simp [writesLocked, writesLockedAux]
      · rw [initiate_not_pending c uid isOnline pushOk hasSocket hasQM hp]
        simp [writesLocked, writesLockedAux]
  · intro h1 h2
    simp [handleWakeUpResponse, createSession, updateChallengeState, transitionTo,
      canTransitionTo, challengeStateTransitions, h1, h2, writesLocked, writesLockedAux]
  · intro h1 h2
    simp [handleWakeUpResponse, updateChallengeState, transitionTo,
      canTransitionTo, challengeStateTransitions, h1, h2, writesLocked, writesLockedAux]
  · intro h1 h2
    simp [handleTimeout, updateChallengeState, transitionTo, canTransitionTo,
      challengeStateTransitions, h1, h2, writesLocked, writesLockedAux]
  · by_cases hu : c.challengedId = uid
    · by_cases hp : c.state = .PENDING
      · simp [declineChallenge, updateChallengeState, canTransitionTo,
          challengeStateTransitions, hu, hp]
      · simp [declineChallenge, hu, hp]
    · simp [declineChallenge, hu]

/-- C2, witness for the amended theorem at concrete inputs exercising
the locked initiate path and the unlocked response, timeout and decline
paths. -/
theorem lock_discipline_amended_witness :
    writesLocked (initiateHandshake chWaiting 10 true true true true true).evs = true
    ∧ writesLocked (handleWakeUpResponse chWaiting 10 "ACCEPT" true 5).evs = false
    ∧ writesLocked (handleWakeUpResponse chWaiting 10 "DECLINE" true 5).evs = false
    ∧ writesLocked (handleTimeout chWaiting 3 true true).evs = false
    ∧ (declineChallenge chWaiting 10).evs = [] :=
  ⟨(lock_discipline_amended chWaiting 10 3 5 true true true true true).1,
   (lock_discipline_amended chWaiting 10 3 5 true true true true true).2.1 rfl rfl,
   (lock_discipline_amended chWaiting 10 3 5 true true true true true).2.2.1 rfl rfl,
   (lock_discipline_amended chWaiting 10 3 5 true true true true true).2.2.2.1 rfl
     (by decide),
   (lock_discipline_amended chWaiting 10 3 5 true true true true true).2.2.2.2⟩

/-- C9: the heartbeat never creates a presence hash: when the hash of
the user is absent the store is returned unchanged, and when it is
present the operation keeps every entry of every other key, keeps the
store length, and rewrites only the TTL and the lastSeen field of the
presence entry of the user. -/
theorem heartbeat_no_resurrect (store : Store) (userId : Nat) (now : String) :
    (store.any (fun p => p.1 = presenceKey userId) = false →
      heartbeat store userId now = store)
    ∧ (heartbeat store userId now).length = store.length
    ∧ (∀ k entry, (k, entry) ∈ store → k ≠ presenceKey userId →
        (k, entry) ∈ heartbeat store userId now)
    ∧ (∀ entry, (presenceKey userId, entry) ∈ store →
        (presenceKey userId,
          { fields := setField entry.fields "lastSeen" now,
            ttl := PRESENCE_TTL_SECONDS }) ∈ heartbeat store userId now) := by
  refine ⟨?_, ?_, ?_, ?_⟩
  · intro h
    simp [heartbeat, h]
  · by_cases h : store.any (fun p => p.1 = presenceKey userId) = true <;>
      simp [heartbeat, h]
  · intro k entry hmem hne
    by_cases h : store.any (fun p => p.1 = presenceKey userId) = true
    · simp only [heartbeat, h, if_true]
      exact List.mem_map.mpr ⟨(k, entry), hmem, by simp [hne]⟩
    · simp [heartbeat, h, hmem]
  · intro entry hmem
    by_cases h : store.any (fun p => p.1 = presenceKey userId) = true
    · simp only [heartbeat, h, if_true]
      exact List.mem_map.mpr ⟨(presenceKey userId, entry), hmem, by simp⟩
    · exact absurd (List.any_eq_true.mpr ⟨(presenceKey userId, entry), hmem, by simp⟩) h

/-- C9, witness: the heartbeat on an empty store does nothing, and on a
store holding the presence hash of the user it rewrites that entry with
the refreshed TTL and stamp. -/
theorem heartbeat_no_resurrect_witness :
    heartbeat [] 5 "9" = ([] : Store)
    ∧ (presenceKey 5,
        { fields := setField [("isOnline", "true")] "lastSeen" "9",
          ttl := PRESENCE_TTL_SECONDS })
      ∈ heartbeat [(presenceKey 5, { fields := [("isOnline", "true")], ttl := 3 })] 5 "9" :=
  ⟨(heartbeat_no_resurrect [] 5 "9").1 rfl,
   (heartbeat_no_resurrect
      [(presenceKey 5, { fields := [("isOnline", "true")], ttl := 3 })] 5 "9").2.2.2
      { fields := [("isOnline", "true")], ttl := 3 } (by simp)⟩

/-- Branch characterization of handleTimeout: a challenge no longer in
WAITING_RESPONSE makes the handler return quietly. -/
theorem timeout_not_waiting (c : ChallengeRec) (n : Nat) (hasSocket hasQM : Bool)
    (h : c.state ≠ .WAITING_RESPONSE) :
    handleTimeout c n hasSocket hasQM = { retry := false, chall := c, evs := [] } := by
  simp [handleTimeout, h]

/-- Branch characterization of handleTimeout at or above the retry
bound: the row moves to TIMEOUT and challenge:timeout is emitted. -/
theorem timeout_final (c : ChallengeRec) (n : Nat) (hasSocket hasQM : Bool)
    (h1 : c.state = .WAITING_RESPONSE) (h2 : MAX_RETRY_ATTEMPTS ≤ n) :
    handleTimeout c n hasSocket hasQM =
      { retry := false, chall := { c with state := .TIMEOUT },
        evs := [.stateWrite c.id .TIMEOUT]
          ++ (if hasSocket then [.emit c.challengedId "challenge:timeout" none] else []) } := by
  simp [handleTimeout, updateChallengeState, transitionTo, canTransitionTo,
    challengeStateTransitions, h1, h2]

/-- Branch characterization of handleTimeout below the retry bound: the
push is resent, the counter incremented, the next attempt scheduled. -/
theorem timeout_retry (c : ChallengeRec) (n : Nat) (hasSocket hasQM : Bool)
    (h1 : c.state = .WAITING_RESPONSE) (h2 : ¬ MAX_RETRY_ATTEMPTS ≤ n) :
    handleTimeout c n hasSocket hasQM =
      { retry := true, chall := incrementNotificationAttempt c,
        evs := [.push c.challengerId]
          ++ (if hasQM then [.schedule c.id (n + 1)] else []) } := by
  simp [handleTimeout, h1, h2]

/-- The wake-up response handler never changes the attempt counter. -/
theorem wake_att_eq (c : ChallengeRec) (uid : Nat) (r : String)
    (hasSocket : Bool) (sid : Nat) :
    (handleWakeUpResponse c uid r hasSocket sid).chall.notificationAttempts
      = c.notificationAttempts := by
  by_cases hg : c.challengerId = uid
  · by_cases hs : c.state = .WAITING_RESPONSE
    · by_cases hr : r = "ACCEPT"
      · simp [handleWakeUpResponse, createSession, updateChallengeState, transitionTo,
          canTransitionTo, challengeStateTransitions, hg, hs, hr]
      · by_cases hr2 : r = "DECLINE"
        · simp [handleWakeUpResponse, updateChallengeState, transitionTo,
            canTransitionTo, challengeStateTransitions, hg, hs, hr, hr2]
        · simp [handleWakeUpResponse, hg, hs, hr, hr2]
    · simp [handleWakeUpResponse, hg, hs]
  · simp [handleWakeUpResponse, hg]

/-- The wake-up response handler either leaves the row untouched or
moves a WAITING_RESPONSE row to a state other than PENDING. -/
theorem wake_chall_cases (c : ChallengeRec) (uid : Nat) (r : String)
    (hasSocket : Bool) (sid : Nat) :
    (handleWakeUpResponse c uid r hasSocket sid).chall = c
    ∨ ((handleWakeUpResponse c uid r hasSocket sid).chall.state ≠ .PENDING
        ∧ c.state = .WAITING_RESPONSE) := by
  by_cases hg : c.challengerId = uid
  · by_cases hs : c.state = .WAITING_RESPONSE
    · by_cases hr : r = "ACCEPT"
      · right
        constructor
        · simp [handleWakeUpResponse, createSession, updateChallengeState, transitionTo,
            canTransitionTo, challengeStateTransitions, hg, hs, hr]
        · exact hs
      · by_cases hr2 : r = "DECLINE"
        · right
          constructor
          · simp [handleWakeUpResponse, updateChallengeState, transitionTo,
              canTransitionTo, challengeStateTransitions, hg, hs, hr, hr2]
          · exact hs
        · left
          simp [handleWakeUpResponse, hg, hs, hr, hr2]
    · left
      simp [handleWakeUpResponse, hg, hs]
  · left
    simp [handleWakeUpResponse, hg]

/-- The decline endpoint never changes the challenge row: its only state
update is rejected by the transition table. -/
theorem decline_chall_eq (c : ChallengeRec) (uid : Nat) :
    (declineChallenge c uid).chall = c := by
  by_cases hu : c.challengedId = uid
  · by_cases hp : c.state = .PENDING
    · simp [declineChallenge, updateChallengeState, canTransitionTo,
        challengeStateTransitions, hu, hp]
    · simp [declineChallenge, hu, hp]
  · simp [declineChallenge, hu]

/-- The attempt counter never decreases across initiateHandshake. -/
theorem initiate_att_mono (c : ChallengeRec) (uid : Nat)
    (lockFree isOnline pushOk hasSocket hasQM : Bool) :
    c.notificationAttempts
      ≤ (initiateHandshake c uid lockFree isOnline pushOk hasSocket hasQM).chall.notificationAttempts := by
  cases lockFree
  · simp [initiateHandshake]
  · by_cases hp : c.state = .PENDING
    · by_cases hu : c.challengedId = uid
      · rw [initiate_success c uid isOnline pushOk hasSocket hasQM hp hu]
        simp
      · rw [initiate_wrong_user c uid isOnline pushOk hasSocket hasQM hp hu]
    · rw [initiate_not_pending c uid isOnline pushOk hasSocket hasQM hp]

/-- The attempt counter never decreases across handleTimeout. -/
theorem timeout_att_mono (c : ChallengeRec) (n : Nat) (hasSocket hasQM : Bool) :
    c.notificationAttempts
      ≤ (handleTimeout c n hasSocket hasQM).chall.notificationAttempts := by
  by_cases h1 : c.state = .WAITING_RESPONSE
  · by_cases h2 : MAX_RETRY_ATTEMPTS ≤ n
    · rw [timeout_final c n hasSocket hasQM h1 h2]
    · rw [timeout_retry c n hasSocket hasQM h1 h2]
      simp [incrementNotificationAttempt]
  · rw [timeout_not_waiting c n hasSocket hasQM h1]

/-- One system step never decreases the attempt counter. -/
theorem sysStep_mono (s s' : SysState) (e : SysEvent)
    (h : sysStep s e = some s') :
    s.chall.notificationAttempts ≤ s'.chall.notificationAttempts := by
  cases e with
  | accept uid isOnline pushOk =>
    simp only [sysStep, Option.some.injEq] at h
    subst h
    exact initiate_att_mono s.chall uid true isOnline pushOk true true
  | deliver n =>
    simp only [sysStep] at h
    split at h
    · simp only [Option.some.injEq] at h
      subst h
      exact timeout_att_mono s.chall n true true
    · cases h
  | respond uid r =>
    simp only [sysStep, Option.some.injEq] at h
    subst h
    simp [wake_att_eq]
  | decline uid =>
    simp only [sysStep, Option.some.injEq] at h
    subst h
    simp [decline_chall_eq]
  | expireSweep past =>
    simp only [sysStep] at h
    split at h <;> simp only [Option.some.injEq] at h <;> subst h <;> simp

/-- Running a trace never decreases the attempt counter. -/
theorem runTrace_mono (t : List SysEvent) (s s' : SysState)
    (h : runTrace s t = some s') :
    s.chall.notificationAttempts ≤ s'.chall.notificationAttempts := by
  induction t generalizing s with
  | nil =>
    simp [runTrace] at h
    subst h
    exact le_rfl
  | cons e rest ih =>
    simp only [runTrace] at h
    cases hstep : sysStep s e with
    | none => rw [hstep] at h; cases h
    | some s1 =>
      rw [hstep] at h
      exact le_trans (sysStep_mono s s1 e hstep) (ih s1 h)

/-- A system step touches the delivered set only by recording the
delivered attempt number of a timeout job. -/
theorem sysStep_delivered (s s' : SysState) (e : SysEvent)
    (h : sysStep s e = some s') :
    s'.delivered = s.delivered
    ∨ ∃ n, e = .deliver n ∧ n ∈ s.scheduled ∧ s'.delivered = insert n s.delivered := by
  cases e with
  | accept uid isOnline pushOk =>
    left
    simp only [sysStep, Option.some.injEq] at h
    subst h
    rfl
  | deliver n =>
    right
    simp only [sysStep] at h
    split at h
    · simp only [Option.some.injEq] at h
      subst h
      exact ⟨n, rfl, by assumption, rfl⟩
    · cases h
  | respond uid r =>
    left
    simp only [sysStep, Option.some.injEq] at h
    subst h
    rfl
  | decline uid =>
    left
    simp only [sysStep, Option.some.injEq] at h
    subst h
    rfl
  | expireSweep past =>
    left
    simp only [sysStep] at h
    split at h <;> simp only [Option.some.injEq] at h <;> subst h <;> rfl

/-- The schedule events of an initiateHandshake trace: exactly attempt
one on the success path, nothing otherwise. -/
theorem schedOf_initiate (c : ChallengeRec) (uid : Nat) (isOnline pushOk : Bool) :
    schedOf (initiateHandshake c uid true isOnline pushOk true true).evs
      = if c.state = .PENDING ∧ c.challengedId = uid then {1} else ∅ := by
  by_cases hp : c.state = .PENDING
  · by_cases hu : c.challengedId = uid
    · rw [initiate_success c uid isOnline pushOk true true hp hu]
      cases isOnline <;> simp [schedOf, hp, hu]
    · rw [initiate_wrong_user c uid isOnline pushOk true true hp hu]
      simp [schedOf, hp, hu]
  · rw [initiate_not_pending c uid isOnline pushOk true true hp]
    simp [schedOf, hp]

/-- The schedule events of a handleTimeout trace: exactly the next
attempt on the retry path, nothing otherwise. -/
theorem schedOf_timeout (c : ChallengeRec) (n : Nat) :
    schedOf (handleTimeout c n true true).evs
      = if c.state = .WAITING_RESPONSE ∧ ¬ MAX_RETRY_ATTEMPTS ≤ n then {n + 1} else ∅ := by
  by_cases hw : c.state = .WAITING_RESPONSE
  · by_cases h3 : MAX_RETRY_ATTEMPTS ≤ n
    · rw [timeout_final c n true true hw h3]
      simp [schedOf, hw, h3]
    · rw [timeout_retry c n true true hw h3]
      simp [schedOf, hw, h3]
  · rw [timeout_not_waiting c n true true hw]
    simp [schedOf, hw]

/-- One system step preserves the invariant, provided a delivered
attempt number is fresh. -/
theorem sysStep_inv (s s' : SysState) (e : SysEvent) (hInv : Inv s)
    (hfresh : ∀ n, e = SysEvent.deliver n → n ∉ s.delivered)
    (h : sysStep s e = some s') : Inv s' := by
  obtain ⟨hsub, hdel, hpend, hbound⟩ := hInv
  cases e with
  | accept uid isOnline pushOk =>
    simp only [sysStep, Option.some.injEq] at h
    subst h
    by_cases hp : s.chall.state = .PENDING
    · by_cases hu : s.chall.challengedId = uid
      · obtain ⟨hatt0, hsch0⟩ := hpend hp
        rw [schedOf_initiate s.chall uid isOnline pushOk, if_pos ⟨hp, hu⟩,
          initiate_success s.chall uid isOnline pushOk true true hp hu]
        refine ⟨?_, ?_, ?_, ?_⟩
        · show s.scheduled ∪ {1} ⊆ {1, 2, 3}
          rw [hsch0]
          decide
        · show s.delivered ⊆ s.scheduled ∪ {1}
          exact hdel.trans Finset.subset_union_left
        · intro hcontra
          simp at hcontra
        · show s.chall.notificationAttempts + 1
            ≤ 1 + (s.delivered.filter (fun n => n < MAX_RETRY_ATTEMPTS)).card
          rw [hatt0]
          simp
      · rw [schedOf_initiate s.chall uid isOnline pushOk,
          if_neg (fun hc => hu hc.2),
          initiate_wrong_user s.chall uid isOnline pushOk true true hp hu]
        refine ⟨?_, ?_, ?_, hbound⟩
        · show s.scheduled ∪ ∅ ⊆ {1, 2, 3}
          rw [Finset.union_empty]
          exact hsub
        · show s.delivered ⊆ s.scheduled ∪ ∅
          rw [Finset.union_empty]
          exact hdel
        · intro hp2
          obtain ⟨h1, h2⟩ := hpend hp2
          exact ⟨h1, by rw [Finset.union_empty]; exact h2⟩
    · rw [schedOf_initiate s.chall uid isOnline pushOk,
        if_neg (fun hc => hp hc.1),
        initiate_not_pending s.chall uid isOnline pushOk true true hp]
      refine ⟨?_, ?_, ?_, hbound⟩
      · show s.scheduled ∪ ∅ ⊆ {1, 2, 3}
        rw [Finset.union_empty]
        exact hsub
      · show s.delivered ⊆ s.scheduled ∪ ∅
        rw [Finset.union_empty]
        exact hdel
      · intro hp2
        obtain ⟨h1, h2⟩ := hpend hp2
        exact ⟨h1, by rw [Finset.union_empty]; exact h2⟩
  | deliver n =>
    by_cases hmem : n ∈ s.scheduled
    · simp only [sysStep, hmem, if_true, Option.some.injEq] at h
      subst h
      have hnfresh : n ∉ s.delivered := hfresh n rfl
      have hcard : (s.delivered.filter (fun m => m < MAX_RETRY_ATTEMPTS)).card
          ≤ ((insert n s.delivered).filter (fun m => m < MAX_RETRY_ATTEMPTS)).card :=
        Finset.card_le_card
          (Finset.filter_subset_filter _ (Finset.subset_insert n _))
      by_cases hw : s.chall.state = .WAITING_RESPONSE
      · by_cases h3 : MAX_RETRY_ATTEMPTS ≤ n
        · rw [schedOf_timeout s.chall n, if_neg (fun hc => hc.2 h3),
            timeout_final s.chall n true true hw h3]
          refine ⟨?_, ?_, ?_, ?_⟩
          · show s.scheduled ∪ ∅ ⊆ {1, 2, 3}
            rw [Finset.union_empty]
            exact hsub
          · show insert n s.delivered ⊆ s.scheduled ∪ ∅
            rw [Finset.union_empty]
            exact Finset.insert_subset hmem hdel
          · intro hcontra
            simp at hcontra
          · show s.chall.notificationAttempts
              ≤ 1 + ((insert n s.delivered).filter (fun m => m < MAX_RETRY_ATTEMPTS)).card
            exact le_trans hbound (Nat.add_le_add_left hcard 1)
        · rw [schedOf_timeout s.chall n, if_pos ⟨hw, h3⟩,
            timeout_retry s.chall n true true hw h3]
          have hn3 : n < MAX_RETRY_ATTEMPTS := by omega
          have hfilter : (insert n s.delivered).filter (fun m => m < MAX_RETRY_ATTEMPTS)
              = insert n (s.delivered.filter (fun m => m < MAX_RETRY_ATTEMPTS)) := by
            rw [Finset.filter_insert, if_pos hn3]
          have hnot : n ∉ s.delivered.filter (fun m => m < MAX_RETRY_ATTEMPTS) :=
            fun hx => hnfresh (Finset.mem_of_mem_filter n hx)
          refine ⟨?_, ?_, ?_, ?_⟩
          · refine Finset.union_subset hsub ?_
            rw [Finset.singleton_subset_iff]
            have hn123 := hsub hmem
            have hn3b : n < 3 := hn3
            simp only [Finset.mem_insert, Finset.mem_singleton] at hn123 ⊢
            omega
          · exact Finset.insert_subset (Finset.mem_union_left _ hmem)
              (hdel.trans Finset.subset_union_left)
          · intro hcontra
            exact absurd (hw.symm.trans hcontra) (by decide)
          · show s.chall.notificationAttempts + 1
              ≤ 1 + ((insert n s.delivered).filter (fun m => m < MAX_RETRY_ATTEMPTS)).card
            rw [hfilter, Finset.card_insert_of_not_mem hnot]
            omega
      · rw [schedOf_timeout s.chall n, if_neg (fun hc => hw hc.1),
          timeout_not_waiting s.chall n true true hw]
        refine ⟨?_, ?_, ?_, ?_⟩
        · show s.scheduled ∪ ∅ ⊆ {1, 2, 3}
          rw [Finset.union_empty]
          exact hsub
        · show insert n s.delivered ⊆ s.scheduled ∪ ∅
          rw [Finset.union_empty]
          exact Finset.insert_subset hmem hdel
        · intro hp2
          obtain ⟨h1, h2⟩ := hpend hp2
          exact ⟨h1, by rw [Finset.union_empty]; exact h2⟩
        · show s.chall.notificationAttempts
            ≤ 1 + ((insert n s.delivered).filter (fun m => m < MAX_RETRY_ATTEMPTS)).card
          exact le_trans hbound (Nat.add_le_add_left hcard 1)
    · simp [sysStep, hmem] at h
  | respond uid r =>
    simp only [sysStep, Option.some.injEq] at h
    subst h
    rcases wake_chall_cases s.chall uid r true 0 with hc | ⟨hnp, hwr⟩
    · refine ⟨hsub, hdel, ?_, ?_⟩
      · rw [hc]
        exact hpend
      · rw [hc]
        exact hbound
    · refine ⟨hsub, hdel, ?_, ?_⟩
      · intro hcontra
        exact absurd hcontra hnp
      · show (handleWakeUpResponse s.chall uid r true 0).chall.notificationAttempts
          ≤ 1 + (s.delivered.filter (fun n => n < MAX_RETRY_ATTEMPTS)).card
        rw [wake_att_eq]
        exact hbound
  | decline uid =>
    simp only [sysStep, Option.some.injEq] at h
    subst h
    refine ⟨hsub, hdel, ?_, ?_⟩
    · rw [decline_chall_eq]
      exact hpend
    · rw [decline_chall_eq]
      exact hbound
  | expireSweep past =>
    by_cases hc : s.chall.state = .PENDING ∧ past = true
    · simp only [sysStep, hc.1, hc.2, eq_self_iff_true, and_self, if_true,
        Option.some.injEq] at h
      subst h
      obtain ⟨hatt0, hsch0⟩ := hpend hc.1
      refine ⟨hsub, hdel, ?_, ?_⟩
      · intro hcontra
        simp at hcontra
      · show s.chall.notificationAttempts
          ≤ 1 + (s.delivered.filter (fun n => n < MAX_RETRY_ATTEMPTS)).card
        exact hbound
    · simp only [sysStep, hc, if_false, Option.some.injEq] at h
      subst h
      exact ⟨hsub, hdel, hpend, hbound⟩

/-- The deliveries of a trace headed by a timeout delivery. -/
theorem deliversOf_cons_deliver (n : Nat) (t : List SysEvent) :
    deliversOf (SysEvent.deliver n :: t) = n :: deliversOf t :=
  rfl

/-- The deliveries of a trace headed by any other stimulus. -/
theorem deliversOf_cons_other (e : SysEvent) (t : List SysEvent)
    (he : ∀ n, e ≠ SysEvent.deliver n) :
    deliversOf (e :: t) = deliversOf t := by
  cases e <;> first | rfl | exact absurd rfl (he _)

/-- Running a trace whose deliveries are pairwise distinct and all fresh
preserves the invariant. -/
theorem runTrace_inv (t : List SysEvent) (s s' : SysState) (hInv : Inv s)
    (h : runTrace s t = some s')
    (hnd : (deliversOf t).Nodup)
    (hfr : ∀ n, n ∈ deliversOf t → n ∉ s.delivered) : Inv s' := by
  induction t generalizing s with
  | nil =>
    simp only [runTrace, Option.some.injEq] at h
    subst h
    exact hInv
  | cons e rest ih =>
    simp only [runTrace] at h
    cases hstep : sysStep s e with
    | none =>
      rw [hstep] at h
      cases h
    | some s1 =>
      rw [hstep] at h
      have hfresh : ∀ n, e = SysEvent.deliver n → n ∉ s.delivered := fun n he =>
        hfr n (by rw [he, deliversOf_cons_deliver]; exact List.mem_cons_self n _)
      have hInv1 := sysStep_inv s s1 e hInv hfresh hstep
      refine ih s1 hInv1 h ?_ ?_
      · by_cases hde : ∃ n, e = SysEvent.deliver n
        · obtain ⟨n, rfl⟩ := hde
          rw [deliversOf_cons_deliver] at hnd
          exact hnd.of_cons
        · rw [deliversOf_cons_other e rest (fun n hn => hde ⟨n, hn⟩)] at hnd
          exact hnd
      · intro m hm
        by_cases hde : ∃ n, e = SysEvent.deliver n
        · obtain ⟨n, rfl⟩ := hde
          rcases sysStep_delivered s s1 _ hstep with hdeq | ⟨n', he', _, hdins⟩
          · rw [hdeq]
            exact hfr m
              (by rw [deliversOf_cons_deliver]; exact List.mem_cons_of_mem _ hm)
          · injection he' with hnn
            subst hnn
            rw [hdins]
            intro hmem
            rcases Finset.mem_insert.mp hmem with rfl | hmem2
            · rw [deliversOf_cons_deliver] at hnd
              exact (List.nodup_cons.mp hnd).1 hm
            · exact hfr m
                (by rw [deliversOf_cons_deliver]; exact List.mem_cons_of_mem _ hm) hmem2
        · rcases sysStep_delivered s s1 e hstep with hdeq | ⟨n', he', _, _⟩
          · rw [hdeq]
            exact hfr m
              (by rw [deliversOf_cons_other e rest (fun n hn => hde ⟨n, hn⟩)]; exact hm)
          · exact absurd ⟨n', he'⟩ hde

/-- The invariant bounds the attempt counter by MAX_RETRY_ATTEMPTS. -/
theorem inv_bound (s : SysState) (hInv : Inv s) :
    s.chall.notificationAttempts ≤ MAX_RETRY_ATTEMPTS := by
  obtain ⟨hsub, hdel, _, hbound⟩ := hInv
  have hfsub : s.delivered.filter (fun n => n < MAX_RETRY_ATTEMPTS)
      ⊆ ({1, 2} : Finset Nat) := by
    intro x hx
    have hx2 : x < 3 := (Finset.mem_filter.mp hx).2
    have hx3 := hsub (hdel (Finset.mem_of_mem_filter x hx))
    simp only [Finset.mem_insert, Finset.mem_singleton] at hx3 ⊢
    omega
  have hcard : (s.delivered.filter (fun n => n < MAX_RETRY_ATTEMPTS)).card ≤ 2 :=
    le_trans (Finset.card_le_card hfsub) (by decide)
  show s.chall.notificationAttempts ≤ 3
  omega

/-- Running a concatenated trace runs the pieces in order. -/
theorem runTrace_append (t1 t2 : List SysEvent) (s s1 : SysState)
    (h : runTrace s t1 = some s1) :
    runTrace s (t1 ++ t2) = runTrace s1 t2 := by
  induction t1 generalizing s with
  | nil =>
    simp only [runTrace, Option.some.injEq] at h
    subst h
    simp
  | cons e rest ih =>
    simp only [runTrace, List.cons_append] at h ⊢
    cases hstep : sysStep s e with
    | none =>
      rw [hstep] at h
      cases h
    | some s2 =>
      rw [hstep] at h
      exact ih s2 h

/-- C6, counterexample: with jobs delivered at least once and possibly
duplicated, the attempt counter exceeds MaxRetryAttempts: a freshly
created PENDING challenge, accepted and then hit by the attempt-one
timeout job twice and the attempt-two job once, holds a counter of four
while MAX_RETRY_ATTEMPTS is three, because the handler guards on the
attempt number of the job, not on the stored counter. -/
theorem attempts_exceed_max_cex :
    (runTrace (initSys chPending)
        [.accept 20 false true, .deliver 1, .deliver 1, .deliver 2]).map
      (fun s => s.chall.notificationAttempts) = some 4
    ∧ MAX_RETRY_ATTEMPTS < 4 := by
  decide

/-- C6, amended: along every reachable trace from a freshly created
PENDING challenge the attempt counter is monotonically non-decreasing,
and when every timeout job of the trace is delivered at most once, that
is, the delivered attempt numbers are pairwise distinct, the counter
never exceeds MAX_RETRY_ATTEMPTS. -/
theorem attempts_monotone_bounded (c : ChallengeRec) (t1 t2 : List SysEvent)
    (s1 s2 : SysState) (hc : c.state = .PENDING) (ha : c.notificationAttempts = 0)
    (h1 : runTrace (initSys c) t1 = some s1) (h2 : runTrace s1 t2 = some s2) :
    s1.chall.notificationAttempts ≤ s2.chall.notificationAttempts
    ∧ ((deliversOf (t1 ++ t2)).Nodup →
        s2.chall.notificationAttempts ≤ MAX_RETRY_ATTEMPTS) := by
  constructor
  · exact runTrace_mono t2 s1 s2 h2
  · intro hnd
    have hrun : runTrace (initSys c) (t1 ++ t2) = some s2 := by
      rw [runTrace_append t1 t2 _ s1 h1]
      exact h2
    have hInv0 : Inv (initSys c) := by
      refine ⟨?_, ?_, ?_, ?_⟩ <;> simp [initSys, hc, ha]
    exact inv_bound s2 (runTrace_inv (t1 ++ t2) (initSys c) s2 hInv0 hrun hnd
      (fun n _ => by simp [initSys]))

/-- C6, witness: one accept followed by one delivery of the attempt-one
job, where the counter climbs from one to two and stays within the
bound. -/
theorem attempts_monotone_bounded_witness :
    ({ chall := chWaiting, scheduled := {1}, delivered := ∅ } : SysState).chall.notificationAttempts
      ≤ ({ chall := { chPending with state := .WAITING_RESPONSE, notificationAttempts := 2 },
           scheduled := {1, 2}, delivered := {1} } : SysState).chall.notificationAttempts
    ∧ ((deliversOf ([SysEvent.accept 20 false true] ++ [SysEvent.deliver 1])).Nodup →
        ({ chall := { chPending with state := .WAITING_RESPONSE, notificationAttempts := 2 },
           scheduled := {1, 2}, delivered := {1} } : SysState).chall.notificationAttempts
          ≤ MAX_RETRY_ATTEMPTS) :=
  attempts_monotone_bounded chPending
    [SysEvent.accept 20 false true] [SysEvent.deliver 1]
    { chall := chWaiting, scheduled := {1}, delivered := ∅ }
    { chall := { chPending with state := .WAITING_RESPONSE, notificationAttempts := 2 },
      scheduled := {1, 2}, delivered := {1} }
    rfl rfl (by decide) (by decide)

end Handshake

